import Mathlib

/-!
Shallow embedding of the reel-to-recipe job-orchestration core
(`src/api/rate_limiter.py`, `src/api/routes/extract.py`,
`src/ai-worker/recipe_extractor.py`, `src/ai-worker/main.py`) and proofs
about the behaviour the specification describes.

Modelling conventions:
* Python numbers (ints and floats appearing in this code) are modelled as
  `Int` / `Rat`; `round(x, 2)` is modelled exactly as round-half-to-even of
  `x * 100` divided by `100` over `Rat`.
* A Redis sorted set whose member for score `t` is always `str(t)` is
  modelled as the list of its (distinct) integer scores; `ZADD` of an
  existing member is a no-op on the member set.
* Redis string keys holding JSON documents are modelled as functions
  `String → Option _`; `datetime.utcnow().isoformat()` is passed in as an
  explicit `String` parameter.
* `dict.get(k, d)` on possibly-missing keys is modelled with `Option` and
  `Option.getD`; Python truthiness of a string is `s ≠ ""`.
-/

/-! ## Rounding (Python `round(x, 2)`) -/

/-- Round a rational to the nearest integer, ties to even
(Python's `round` semantics). -/
def roundHalfEven (q : ℚ) : ℤ :=
  let f := ⌊q⌋
  let r := q - (f : ℚ)
  if r < 1/2 then f
  else if 1/2 < r then f + 1
  else if f % 2 = 0 then f else f + 1

/-- Python `round(q, 2)`. -/
def round2 (q : ℚ) : ℚ := (roundHalfEven (q * 100) : ℚ) / 100

/-! ## Rate limiter (`src/api/rate_limiter.py`) -/

/-- One tier row of the static tier→limit table in `RateLimiter._get_limits`. -/
structure TierLimits where
  requests_per_minute : ℤ
  requests_per_hour : ℤ
  requests_per_day : ℤ
deriving DecidableEq

/-- `RateLimiter._get_limits`: the static table, with `limits.get(tier,
limits["free"])` falling back to the free tier for unknown tiers. -/
def get_limits (tier : String) : TierLimits :=
  if tier = "free" then ⟨10, 100, 500⟩
  else if tier = "basic" then ⟨30, 500, 2000⟩
  else if tier = "pro" then ⟨100, 2000, 10000⟩
  else if tier = "enterprise" then ⟨500, 10000, 100000⟩
  else ⟨10, 100, 500⟩

/-- `ZREMRANGEBYSCORE key lo hi`: drop every member whose score lies in
`[lo, hi]`. -/
def zremrangebyscore (s : List ℤ) (lo hi : ℤ) : List ℤ :=
  s.filter (fun t => !(decide (lo ≤ t) && decide (t ≤ hi)))

/-- `ZADD key {str(now): now}`: the member `str now` is added if absent;
re-adding an existing member only rewrites its (identical) score. -/
def zadd (s : List ℤ) (t : ℤ) : List ℤ :=
  if t ∈ s then s else s ++ [t]

/-- The Redis connection state seen by the limiter: each key holds a sorted
set, modelled by its list of integer scores. -/
structure RedisConn where
  data : String → List ℤ

/-- `RateLimiter`: `self.redis` is `None` until `connect()` is called. -/
structure RateLimiter where
  redis : Option RedisConn

/-- The per-minute window key `f"rate_limit:{user_id}:minute"`. -/
def minuteKey (user_id : String) : String :=
  "rate_limit:" ++ user_id ++ ":minute"

/-- `RateLimiter.check_limit(user_id, tier)` at epoch second `now`.
Returns `(allowed, limit, remaining)` together with the limiter state after
the pipelined update (remove-old / count / add-now / refresh-expiry). -/
def RateLimiter.check_limit (rl : RateLimiter) (user_id tier : String)
    (now : ℤ) : (Bool × ℤ × ℤ) × RateLimiter :=
  match rl.redis with
  | none => ((true, 0, 0), rl)
  | some conn =>
    let limits := get_limits tier
    let key := minuteKey user_id
    let s1 := zremrangebyscore (conn.data key) 0 (now - 60)
    let current_count : ℤ := s1.length
    let s2 := zadd s1 now
    let limit := limits.requests_per_minute
    let remaining := max 0 (limit - current_count)
    let allowed := decide (current_count ≤ limit)
    ((allowed, limit, remaining),
     ⟨some ⟨fun k => if k = key then s2 else conn.data k⟩⟩)

/-- A sequence of admission checks for one user at the given epoch seconds,
threading the limiter state; returns all results in order. -/
def runChecks (rl : RateLimiter) (user_id tier : String) :
    List ℤ → List (Bool × ℤ × ℤ) × RateLimiter
  | [] => ([], rl)
  | t :: ts =>
    let step := rl.check_limit user_id tier t
    let rest := runChecks step.2 user_id tier ts
    (step.1 :: rest.1, rest.2)

/-- A freshly connected limiter with no recorded requests. -/
def freshLimiter : RateLimiter := ⟨some ⟨fun _ => []⟩⟩

/-! ## Recipe data model (`src/ai-worker/recipe_extractor.py`)

The Python code passes recipes and video data around as JSON-shaped dicts;
a possibly-missing key is an `Option` field here. -/

/-- One ingredient entry of the Recipe schema. -/
structure Ingredient where
  name : String
  quantity : Option String
  unit : Option String
  optional : Bool
  notes : Option String
deriving DecidableEq

/-- One instruction entry of the Recipe schema. -/
structure Instruction where
  step_number : Option ℚ
  description : String
  timestamp_start : Option ℚ
  timestamp_end : Option ℚ
deriving DecidableEq

/-- The recipe dict built by `RecipeExtractor` / returned by the AI call. -/
structure RecipeData where
  job_id : Option String
  title : Option String
  description : Option String
  ingredients : Option (List Ingredient)
  instructions : Option (List Instruction)
  cook_time_minutes : Option ℚ
  prep_time_minutes : Option ℚ
  servings : Option ℚ
  difficulty : Option String
  tags : Option (List String)
  confidence_score : Option ℚ
  source_url : Option String
deriving DecidableEq

/-- Video resolution record. -/
structure Resolution where
  width : ℤ
  height : ℤ
deriving DecidableEq

/-- One extracted frame: capture timestamp and OCR text. -/
structure Frame where
  timestamp : Option ℚ
  ocr_text : Option String
deriving DecidableEq

/-- The `VideoData` dict produced by the upstream video stage. -/
structure VideoData where
  duration_seconds : Option ℚ
  resolution : Option Resolution
  frames : List Frame
  transcription : Option String
  source_url : Option String
deriving DecidableEq

/-- Python `str.strip()` (leading and trailing whitespace removed). -/
def pyStrip (s : String) : String :=
  ⟨((s.data.dropWhile Char.isWhitespace).reverse.dropWhile Char.isWhitespace).reverse⟩

/-- Python slicing `s[:n]` (by code points). -/
def pySlice (s : String) (n : ℕ) : String := ⟨s.data.take n⟩

/-- Rendering of a number inside an f-string (Python float/int formatting is
abstracted to the canonical rational rendering; no claim depends on it). -/
def numStr (q : ℚ) : String := toString q

/-! ## Prompt construction (`RecipeExtractor._build_prompt`) -/

/-- The OCR line contributed by one frame, if any: requires a present,
non-empty `ocr_text` whose stripped form is non-empty and longer than 3
characters, and formats it as `[<timestamp>s] <text>`. -/
def ocrLine (frame : Frame) : Option String :=
  match frame.ocr_text with
  | none => none
  | some s =>
    if s = "" then none
    else
      let timestamp := frame.timestamp.getD 0
      let text := pyStrip s
      if text ≠ "" ∧ 3 < text.length then
        some ("[" ++ numStr timestamp ++ "s] " ++ text)
      else none

/-- The `ocr_texts` list accumulated by the frame loop in `_build_prompt`. -/
def qualifyingLines (frames : List Frame) : List String :=
  frames.filterMap ocrLine

/-- `Duration: ... seconds` rendering (`video_data.get('duration_seconds',
'Unknown')`). -/
def durationStr : Option ℚ → String
  | none => "Unknown"
  | some d => numStr d

/-- The `parts` list assembled by `_build_prompt` before `"\n".join`. -/
def buildPromptParts (vd : VideoData) : List String :=
  let metaParts := ["# Video Information",
      "Duration: " ++ durationStr vd.duration_seconds ++ " seconds"]
    ++ (match vd.resolution with
        | some res => ["Resolution: " ++ numStr res.width ++ "x" ++ numStr res.height]
        | none => []) ++ [""]
  let ocr_texts := qualifyingLines vd.frames
  let ocrParts := "# OCR Text from Video Frames" ::
    (if ocr_texts.isEmpty then ["(No text detected in frames)"] else ocr_texts.take 50) ++ [""]
  let transcription := pyStrip (vd.transcription.getD "")
  let transParts := "# Audio Transcription" ::
    (if transcription = "" then ["(No audio transcription available)"]
     else [pySlice transcription 5000]) ++ [""]
  metaParts ++ ocrParts ++ transParts
    ++ ["# Task", "Extract a complete recipe from the above information. Return valid JSON."]

/-- `RecipeExtractor._build_prompt`. -/
def buildPrompt (vd : VideoData) : String :=
  String.intercalate "\n" (buildPromptParts vd)

/-! ## Timestamp back-fill (`RecipeExtractor._add_timestamps`) -/

/-- `RecipeExtractor._add_timestamps`: returns the recipe unchanged when the
frames list or the instruction list is empty or the duration is not
positive; otherwise rewrites every instruction's timestamps from its
`step_number` (defaulting to position+1) and the uniform step duration. -/
def addTimestamps (recipe : RecipeData) (vd : VideoData) : RecipeData :=
  let frames := vd.frames
  let instructions := recipe.instructions.getD []
  if frames.isEmpty || instructions.isEmpty then recipe
  else
    let duration := vd.duration_seconds.getD 0
    if duration ≤ 0 then recipe
    else
      let step_duration := duration / ((max instructions.length 1 : ℕ) : ℚ)
      { recipe with instructions := some (instructions.enum.map (fun p =>
          let step_number := p.2.step_number.getD ((p.1 : ℚ) + 1)
          let start_time := (step_number - 1) * step_duration
          let end_time := step_number * step_duration
          { p.2 with timestamp_start := some (round2 start_time),
                     timestamp_end := some (round2 end_time) })) }

/-! ## Recipe extraction (`RecipeExtractor.extract_recipe`) -/

/-- `RecipeExtractor.SYSTEM_PROMPT`. -/
def SYSTEM_PROMPT : String := "You are an expert recipe extraction AI. Your task is to analyze video content data and extract a complete, well-structured recipe.

You will receive:
1. OCR text extracted from video frames (may include ingredient lists, instructions shown on screen)
2. Audio transcription (spoken instructions and commentary)
3. Video metadata (duration, etc.)

Your goal is to create a complete recipe with:
- A clear, descriptive title
- A list of ingredients with quantities and units
- Step-by-step instructions
- Cooking/prep times if mentioned
- Serving size if mentioned
- Tags for categorization

Respond in valid JSON format matching the Recipe schema."

/-- `RecipeExtractor.JSON_SCHEMA`. -/
def JSON_SCHEMA : String := "
\x7b
  \"title\": \"Recipe Title\",
  \"description\": \"Brief description of the dish\",
  \"ingredients\": [
    \x7b
      \"name\": \"ingredient name\",
      \"quantity\": \"amount (e.g., 2, 1/2, 3-4)\",
      \"unit\": \"unit (e.g., cups, tbsp, oz, pieces)\",
      \"optional\": false,
      \"notes\": \"any special notes\"
    \x7d
  ],
  \"instructions\": [
    \x7b
      \"step_number\": 1,
      \"description\": \"Detailed instruction text\",
      \"timestamp_start\": null,
      \"timestamp_end\": null
    \x7d
  ],
  \"cook_time_minutes\": null,
  \"prep_time_minutes\": null,
  \"servings\": null,
  \"difficulty\": \"easy|medium|hard\",
  \"tags\": [\"tag1\", \"tag2\"],
  \"confidence_score\": 0.95
\x7d
"

/-- `RecipeExtractor.extract_recipe`, with the external
`ai_provider.generate_json` capability passed as a function of the system
prompt and the user prompt; a raised exception is `Except.error`. -/
def extract_recipe (provider : String → String → Except String RecipeData)
    (job_id : String) (video_data : VideoData) : Except String RecipeData :=
  let user_prompt := buildPrompt video_data
  match provider (SYSTEM_PROMPT ++ "\n\nJSON Schema:\n" ++ JSON_SCHEMA) user_prompt with
  | .error e => .error e
  | .ok recipe_data =>
    let rd := { recipe_data with
      job_id := some job_id,
      source_url := some (video_data.source_url.getD ""),
      ingredients := some (recipe_data.ingredients.getD []),
      instructions := some (recipe_data.instructions.getD []) }
    .ok (addTimestamps rd video_data)

/-- `RecipeExtractor._fallback_recipe`. -/
def fallback_recipe (job_id url : String) : RecipeData :=
  { job_id := some job_id,
    title := some "Recipe Extraction Failed",
    description := some "Could not extract recipe from this video. The video may not contain a recipe or the content was not recognizable.",
    ingredients := some [],
    instructions := some [],
    source_url := some url,
    confidence_score := some 0,
    tags := some ["extraction-failed"],
    cook_time_minutes := none,
    prep_time_minutes := none,
    servings := none,
    difficulty := none }

/-! ## Job store and worker (`src/ai-worker/main.py`, `src/api/services/queue.py`) -/

/-- One job record as stored under `job:<id>` (shape written by
`create_extraction_job` in `src/api/routes/extract.py`). -/
structure Job where
  job_id : String
  url : String
  platform : String
  preferred_language : String
  status : String
  progress : ℤ
  created_at : String
  updated_at : String
  error_message : Option String
deriving DecidableEq

/-- Redis key `f"job:{job_id}"`. -/
def jobKey (job_id : String) : String := "job:" ++ job_id

/-- Redis key `f"recipe:{job_id}"`. -/
def recipeKey (job_id : String) : String := "recipe:" ++ job_id

/-- `SET key value` on a keyed store. -/
def setKey {α : Type} (store : String → Option α) (k : String) (v : α) :
    String → Option α :=
  fun q => if q = k then some v else store q

/-- The Redis state the AI worker touches: job records, recipe records, and
the stream entries acknowledged so far. -/
structure WorkerState where
  jobs : String → Option Job
  recipes : String → Option RecipeData
  acked : List String

/-- `AIWorker._update_job_status`: rewrite status/progress/updated_at of an
existing job record, no-op when the record is absent. -/
def update_job_status (jobs : String → Option Job) (job_id status : String)
    (progress : ℤ) (nowIso : String) : String → Option Job :=
  match jobs (jobKey job_id) with
  | none => jobs
  | some job => setKey jobs (jobKey job_id)
      { job with status := status, progress := progress, updated_at := nowIso }

/-- `AIWorker._fail_job`: set status `failed` with progress 0, then persist
the error message. -/
def fail_job (jobs : String → Option Job) (job_id error nowIso : String) :
    String → Option Job :=
  let jobs1 := update_job_status jobs job_id "failed" 0 nowIso
  match jobs1 (jobKey job_id) with
  | none => jobs1
  | some job => setKey jobs1 (jobKey job_id) { job with error_message := some error }

/-- One message delivered from the `queue:ai_processing` stream. -/
structure QueueMessage where
  id : String
  job_id : Option String
  video_data : Option String
deriving DecidableEq

/-- `AIWorker._ack_message`. -/
def ackMessage (st : WorkerState) (mid : String) : WorkerState :=
  { st with acked := st.acked ++ [mid] }

/-- Python truthiness of an optional string field (`fields.get(k)` used in a
boolean context): absent and empty both count as missing. -/
def truthy : Option String → Option String
  | some s => if s = "" then none else some s
  | none => none

/-- `AIWorker.process_next_job` handling one delivered message.
`parse` models `json.loads` on the `video_data` payload and `provider`
models the AI capability; an exception anywhere inside the `try` block is
handled by the `except` branch (`_fail_job`) and the message is always
acknowledged in the `finally` block. -/
def process_next_job (parse : String → Except String VideoData)
    (provider : String → String → Except String RecipeData)
    (msg : QueueMessage) (st : WorkerState) (nowIso : String) :
    WorkerState × Bool :=
  match truthy msg.job_id, truthy msg.video_data with
  | some job_id, some video_data_json =>
    (match parse video_data_json with
     | .error e => (ackMessage { st with jobs := fail_job st.jobs job_id e nowIso } msg.id, true)
     | .ok video_data =>
       match extract_recipe provider job_id video_data with
       | .error e => (ackMessage { st with jobs := fail_job st.jobs job_id e nowIso } msg.id, true)
       | .ok recipe =>
         let st1 := { st with recipes := setKey st.recipes (recipeKey job_id) recipe }
         let st2 := { st1 with jobs := update_job_status st1.jobs job_id "completed" 100 nowIso }
         (ackMessage st2 msg.id, true))
  | _, _ => (ackMessage st msg.id, true)

/-! ## Cancellation route (`cancel_job` in `src/api/routes/extract.py`) -/

/-- `DELETE /jobs/{job_id}`: `Except.error` is an `HTTPException`
`(status_code, detail)`; success returns the updated job store
(`queue.update_job` merges the two fields into the stored record) and the
response message. -/
def cancel_job (jobs : String → Option Job) (job_id : String) :
    Except (ℕ × String) ((String → Option Job) × String) :=
  match jobs (jobKey job_id) with
  | none => .error (404, "Job not found")
  | some job =>
    if job.status = "completed" then .error (400, "Cannot cancel completed job")
    else .ok (setKey jobs (jobKey job_id)
      { job with status := "failed", error_message := some "Cancelled by user" },
      "Job cancelled successfully")

/-- The 2-decimal roundings of the uniform partition of `[0, D]` into `n`
intervals, in step order. -/
def uniformPairs (D : ℚ) (n : ℕ) : List (Option ℚ × Option ℚ) :=
  (List.range n).map (fun (k : ℕ) =>
    (some (round2 ((k : ℚ) * D / n)), some (round2 (((k : ℚ) + 1) * D / n))))

/-! ## Concrete fixtures used by witnesses and counterexamples -/

/-- Eleven check instants inside one 60-second window. -/
def win11 : List ℤ := [0, 1, 2, 3, 4, 5, 6, 7, 8, 9, 10]

/-- Twelve check instants inside one 60-second window. -/
def win12 : List ℤ := [0, 1, 2, 3, 4, 5, 6, 7, 8, 9, 10, 11]

/-- An unlabelled instruction step (no step number, no timestamps). -/
def mkStep (d : String) : Instruction := ⟨none, d, none, none⟩

/-- A recipe dict holding only an `instructions` key. -/
def mkInstrRecipe (l : List Instruction) : RecipeData :=
  { job_id := none, title := none, description := none, ingredients := none,
    instructions := some l, cook_time_minutes := none, prep_time_minutes := none,
    servings := none, difficulty := none, tags := none, confidence_score := none,
    source_url := none }

/-- Three unlabelled steps, as returned by the stub AI provider of the
end-to-end scenario. -/
def stubSteps : List Instruction := [mkStep "mix", mkStep "bake", mkStep "serve"]

/-- The stub AI provider output for the end-to-end scenario. -/
def stubAIRecipe : RecipeData := mkInstrRecipe stubSteps

/-- A stub provider returning three unlabelled instruction steps. -/
def stubProvider : String → String → Except String RecipeData :=
  fun _ _ => .ok stubAIRecipe

/-- The end-to-end scenario input: duration 90, no frames, a transcription. -/
def vd_scenario : VideoData :=
  { duration_seconds := some 90, resolution := none, frames := [],
    transcription := some "mix and bake", source_url := none }

/-- A video with duration 90 and one (qualifying) frame. -/
def vd_oneFrame : VideoData :=
  { duration_seconds := some 90, resolution := none,
    frames := [⟨some 1, some "add the flour"⟩],
    transcription := none, source_url := none }

/-- A recipe whose single instruction carries `step_number` 2. -/
def recipe_stepTwo : RecipeData :=
  mkInstrRecipe [⟨some 2, "the only step", none, none⟩]

/-- A recipe with three unlabelled steps (for the uniform-partition witness). -/
def recipe_threeSteps : RecipeData := mkInstrRecipe stubSteps

/-- An empty job store. -/
def emptyJobs : String → Option Job := fun _ => none

/-- A job record currently being processed at 40% progress. -/
def job0 : Job :=
  ⟨"job-1", "https://example.com/v", "instagram", "en", "processing", 40,
   "T0", "T0", none⟩

/-- A store holding `job0` under its key. -/
def jobs0 : String → Option Job := setKey emptyJobs (jobKey "job-1") job0

/-- A job record already in the terminal `failed` state. -/
def jobF : Job :=
  ⟨"job-2", "https://example.com/w", "tiktok", "en", "failed", 0,
   "T0", "T0", some "boom"⟩

/-- A store holding `jobF` under its key. -/
def jobsF : String → Option Job := setKey emptyJobs (jobKey "job-2") jobF

/-- The worker state before processing: one processing job, no recipes. -/
def st0 : WorkerState := ⟨jobs0, fun _ => none, []⟩

/-- A provider that raises on every call. -/
def failingProvider : String → String → Except String RecipeData :=
  fun _ _ => .error "AI provider unavailable"

/-- A `json.loads` stub that succeeds with `vd_oneFrame`. -/
def okParse : String → Except String VideoData := fun _ => .ok vd_oneFrame

/-- A well-formed queue message for `job-1`. -/
def msg0 : QueueMessage := ⟨"m-1", some "job-1", some "payload"⟩

/-- A malformed queue message: `job_id` missing. -/
def msgMalformed : QueueMessage := ⟨"m-2", none, some "payload"⟩

/-- A video with one qualifying OCR frame (for the prompt witness). -/
def vd_ocr : VideoData :=
  { duration_seconds := some 45, resolution := none,
    frames := [⟨some 5, some "2 cups flour"⟩],
    transcription := none, source_url := none }

/-! ## Helper lemmas -/

/-- Rounding an integer gives it back. -/
theorem roundHalfEven_intCast (n : ℤ) : roundHalfEven (n : ℚ) = n := by
  unfold roundHalfEven
  simp [Int.floor_intCast]

/-- `round(x, 2)` of an integer value is the identity. -/
theorem round2_intCast (n : ℤ) : round2 (n : ℚ) = n := by
  unfold round2
  have h : ((n : ℚ)) * 100 = ((n * 100 : ℤ) : ℚ) := by push_cast; ring
  rw [h, roundHalfEven_intCast]
  push_cast
  field_simp

/-- `round(x, 2)` of a natural value is the identity. -/
theorem round2_natCast (n : ℕ) : round2 (n : ℚ) = n := by
  simpa using round2_intCast n

/-- `round(0, 2) = 0`. -/
theorem round2_zero : round2 0 = 0 := by
  simpa using round2_natCast 0

/-- C9: with no Redis connection, `check_limit` fails open. -/
theorem check_limit_fail_open (user_id tier : String) (now : ℤ) :
    (RateLimiter.mk none).check_limit user_id tier now = ((true, 0, 0), ⟨none⟩) := rfl

/-- C10: unknown tiers silently get the free tier's limits (10/minute). -/
theorem unknown_tier_free_limits (tier : String)
    (h1 : tier ≠ "free") (h2 : tier ≠ "basic") (h3 : tier ≠ "pro")
    (h4 : tier ≠ "enterprise") :
    get_limits tier = get_limits "free"
    ∧ (get_limits tier).requests_per_minute = 10 := by
  simp [get_limits, h1, h2, h3, h4]

theorem unknown_tier_free_limits_witness :
    get_limits "gold" = get_limits "free"
    ∧ (get_limits "gold").requests_per_minute = 10 :=
  unknown_tier_free_limits "gold" (by decide) (by decide) (by decide) (by decide)

/-- C1 counterexample: the free tier limit is 10, yet the 11th check inside
one window is still allowed (the count is taken before the insert). -/
theorem rate_limiter_allows_limit_plus_one_cex :
    (get_limits "free").requests_per_minute = 10
    ∧ (runChecks freshLimiter "alice" "free" win11).1.get? 10 = some (true, 10, 0) :=
  ⟨by decide, by decide⟩

/-- C3: the end-to-end scenario (duration 90, empty frames, three unlabelled
steps from the stub provider) leaves every instruction's timestamps unset,
because `_add_timestamps` returns early when the frames list is empty. -/
theorem timestamps_skipped_when_frames_empty :
    (extract_recipe stubProvider "job-3" vd_scenario).map
      (fun r => (r.instructions.getD []).map
        (fun i => (i.timestamp_start, i.timestamp_end)))
    = Except.ok [(none, none), (none, none), (none, none)] := rfl

/-- C6 counterexample: a job at progress 40 is reset to progress 0 by
`_fail_job`, so progress is not left unchanged. -/
theorem fail_job_resets_progress_cex :
    job0.progress = 40
    ∧ ((fail_job jobs0 "job-1" "boom" "T1") (jobKey "job-1")).map Job.progress
        = some 0
    ∧ ((fail_job jobs0 "job-1" "boom" "T1") (jobKey "job-1")).map Job.status
        = some "failed" :=
  ⟨rfl, rfl, rfl⟩

/-- C6 amended: on failure the worker sets status `failed`, persists the
error message, and resets progress to 0 (together with the new
`updated_at`); all other fields are preserved. -/
theorem fail_job_sets_failed_and_error (jobs : String → Option Job)
    (job_id error nowIso : String) (job : Job)
    (h : jobs (jobKey job_id) = some job) :
    fail_job jobs job_id error nowIso = setKey jobs (jobKey job_id)
      { job with status := "failed", progress := 0, updated_at := nowIso,
                 error_message := some error } := by
  funext q
  simp only [fail_job, update_job_status, h, setKey]
  by_cases hq : q = jobKey job_id <;> simp [setKey, hq]

theorem fail_job_sets_failed_and_error_witness :
    fail_job jobs0 "job-1" "boom" "T1" = setKey jobs0 (jobKey "job-1")
      { job0 with status := "failed", progress := 0, updated_at := "T1",
                  error_message := some "boom" } :=
  fail_job_sets_failed_and_error jobs0 "job-1" "boom" "T1" job0 rfl

/-- C5 counterexample: a job in `processing` (already claimed by a worker)
IS cancellable — `cancel_job` only rejects `completed` jobs — and a worker
status update overwrites the terminal `failed` state with `completed`. -/
theorem cancel_processing_job_cex :
    job0.status = "processing"
    ∧ cancel_job jobs0 "job-1" = Except.ok (setKey jobs0 (jobKey "job-1")
        { job0 with status := "failed", error_message := some "Cancelled by user" },
        "Job cancelled successfully")
    ∧ jobF.status = "failed"
    ∧ ((update_job_status jobsF "job-2" "completed" 100 "T2") (jobKey "job-2")).map
        Job.status = some "completed" :=
  ⟨rfl, rfl, rfl, rfl⟩

/-- C5 amended: cancellation is rejected only for `completed` jobs (and
missing jobs get 404); any other status — `pending`, `processing`, even
`failed` — is overwritten to `failed` with the cancellation reason. The
worker's `_update_job_status` overwrites whatever status an existing job
record has, terminal or not. -/
theorem cancel_and_update_overwrite (jobs : String → Option Job)
    (job_id : String) (job : Job) (h : jobs (jobKey job_id) = some job) :
    (job.status = "completed" →
      cancel_job jobs job_id = Except.error (400, "Cannot cancel completed job"))
    ∧ (job.status ≠ "completed" →
      cancel_job jobs job_id = Except.ok (setKey jobs (jobKey job_id)
        { job with status := "failed", error_message := some "Cancelled by user" },
        "Job cancelled successfully"))
    ∧ (∀ status progress nowIso,
        update_job_status jobs job_id status progress nowIso
        = setKey jobs (jobKey job_id)
            { job with status := status, progress := progress, updated_at := nowIso })
    ∧ (∀ jobs2 : String → Option Job, ∀ id2 : String, jobs2 (jobKey id2) = none →
        cancel_job jobs2 id2 = Except.error (404, "Job not found")) := by
  refine ⟨?_, ?_, ?_, ?_⟩
  · intro hc
    simp only [cancel_job, h, hc, if_pos]
  · intro hc
    simp only [cancel_job, h]
    rw [if_neg hc]
  · intro status progress nowIso
    simp only [update_job_status, h]
  · intro jobs2 id2 h2
    simp only [cancel_job, h2]

theorem cancel_and_update_overwrite_witness :
    cancel_job jobs0 "job-1" = Except.ok (setKey jobs0 (jobKey "job-1")
      { job0 with status := "failed", error_message := some "Cancelled by user" },
      "Job cancelled successfully") :=
  (cancel_and_update_overwrite jobs0 "job-1" job0 rfl).2.1 (by decide)

/-- C8: a malformed queue message (missing or empty `job_id` or
`video_data`) is acknowledged and the handler returns normally, with job
and recipe stores untouched. -/
theorem malformed_message_acked_no_mutation
    (parse : String → Except String VideoData)
    (provider : String → String → Except String RecipeData)
    (msg : QueueMessage) (st : WorkerState) (nowIso : String)
    (h : msg.job_id = none ∨ msg.job_id = some "" ∨ msg.video_data = none
        ∨ msg.video_data = some "") :
    process_next_job parse provider msg st nowIso
      = ({ st with acked := st.acked ++ [msg.id] }, true) := by
  rcases h with h | h | h | h
  · cases hv : truthy msg.video_data <;>
      simp [process_next_job, truthy, ackMessage, h, hv]
  · cases hv : truthy msg.video_data <;>
      simp [process_next_job, truthy, ackMessage, h, hv]
  · cases hj : truthy msg.job_id <;>
      simp [process_next_job, truthy, ackMessage, h, hj]
  · cases hj : truthy msg.job_id <;>
      simp [process_next_job, truthy, ackMessage, h, hj]

theorem malformed_message_acked_no_mutation_witness :
    process_next_job okParse failingProvider msgMalformed st0 "T1"
      = ({ st0 with acked := st0.acked ++ ["m-2"] }, true) :=
  malformed_message_acked_no_mutation okParse failingProvider msgMalformed st0 "T1"
    (Or.inl rfl)

/-- C2 counterexample: with a provider that raises on every call, the worker
stores NO recipe at all (in particular no fallback recipe titled "Recipe
Extraction Failed"); it marks the job failed with the provider's error. -/
theorem worker_no_fallback_recipe_cex :
    (process_next_job okParse failingProvider msg0 st0 "T1").1.recipes
        (recipeKey "job-1") = none
    ∧ ((process_next_job okParse failingProvider msg0 st0 "T1").1.jobs
        (jobKey "job-1")).map Job.status = some "failed"
    ∧ ((process_next_job okParse failingProvider msg0 st0 "T1").1.jobs
        (jobKey "job-1")).map Job.error_message
        = some (some "AI provider unavailable") :=
  ⟨rfl, rfl, rfl⟩

/-- C2 amended: `_fallback_recipe` does return the sentinel Recipe (title
"Recipe Extraction Failed", empty ingredients and instructions, confidence
0.0, tag `extraction-failed`, preserving job id and source url) and, being
a pure constructor, cannot raise — but the worker never invokes it: when
the provider raises on every call, `extract_recipe` propagates the error
and `process_next_job` stores no recipe, marks the job failed with the
provider's error message, and acknowledges the message without raising. -/
theorem fallback_shape_and_failure_path
    (job_id url errMsg nowIso vdj mid : String) (vd : VideoData)
    (provider : String → String → Except String RecipeData)
    (hprov : ∀ sp up, provider sp up = Except.error errMsg)
    (parse : String → Except String VideoData) (hparse : parse vdj = Except.ok vd)
    (hjid : job_id ≠ "") (hvdj : vdj ≠ "") (st : WorkerState) :
    (fallback_recipe job_id url).title = some "Recipe Extraction Failed"
    ∧ (fallback_recipe job_id url).ingredients = some []
    ∧ (fallback_recipe job_id url).instructions = some []
    ∧ (fallback_recipe job_id url).confidence_score = some 0
    ∧ (fallback_recipe job_id url).tags = some ["extraction-failed"]
    ∧ (fallback_recipe job_id url).job_id = some job_id
    ∧ (fallback_recipe job_id url).source_url = some url
    ∧ extract_recipe provider job_id vd = Except.error errMsg
    ∧ process_next_job parse provider ⟨mid, some job_id, some vdj⟩ st nowIso
        = (ackMessage { st with jobs := fail_job st.jobs job_id errMsg nowIso } mid,
           true) := by
  have hex : extract_recipe provider job_id vd = Except.error errMsg := by
    unfold extract_recipe
    simp only [hprov]
  refine ⟨rfl, rfl, rfl, rfl, rfl, rfl, rfl, hex, ?_⟩
  simp only [process_next_job, truthy]
  rw [if_neg hjid, if_neg hvdj]
  simp only [hparse, hex]

theorem fallback_shape_and_failure_path_witness :
    (fallback_recipe "job-1" "https://example.com/v").title
        = some "Recipe Extraction Failed"
    ∧ (fallback_recipe "job-1" "https://example.com/v").ingredients = some []
    ∧ (fallback_recipe "job-1" "https://example.com/v").instructions = some []
    ∧ (fallback_recipe "job-1" "https://example.com/v").confidence_score = some 0
    ∧ (fallback_recipe "job-1" "https://example.com/v").tags
        = some ["extraction-failed"]
    ∧ (fallback_recipe "job-1" "https://example.com/v").job_id = some "job-1"
    ∧ (fallback_recipe "job-1" "https://example.com/v").source_url
        = some "https://example.com/v"
    ∧ extract_recipe failingProvider "job-1" vd_oneFrame
        = Except.error "AI provider unavailable"
    ∧ process_next_job okParse failingProvider ⟨"m-1", some "job-1", some "payload"⟩
        st0 "T1"
        = (ackMessage
            { st0 with jobs := fail_job st0.jobs "job-1" "AI provider unavailable" "T1" }
            "m-1", true) :=
  fallback_shape_and_failure_path "job-1" "https://example.com/v"
    "AI provider unavailable" "T1" "payload" "m-1" vd_oneFrame
    failingProvider (fun _ _ => rfl) okParse rfl (by decide) (by decide) st0


/-- C4 counterexample: back-fill runs on a recipe whose single instruction
carries `step_number` 2 (duration 90): the produced pair is (90, 180),
which is not a partition of [0, 90]. -/
theorem addTimestamps_step_number_cex :
    vd_oneFrame.duration_seconds = some 90
    ∧ ((addTimestamps recipe_stepTwo vd_oneFrame).instructions.getD []).map
        (fun i => (i.timestamp_start, i.timestamp_end)) = [(some 90, some 180)]
    ∧ ¬ ((180 : ℚ) ≤ 90) := by
  refine ⟨rfl, ?_, by norm_num⟩
  simp only [addTimestamps, recipe_stepTwo, mkInstrRecipe, vd_oneFrame]
  norm_num
  constructor
  · have h := round2_natCast 90
    norm_num at h
    exact h
  · have h := round2_natCast 180
    norm_num at h
    exact h

/-- Mapping an indexed function over `l.enum` that only depends on the index
equals mapping it over `List.range`. -/
theorem enum_map_eq_range_map {α β : Type} (l : List α) (g : ℕ × α → β) (G : ℕ → β)
    (h : ∀ k (hk : k < l.length), g (k, l.get ⟨k, hk⟩) = G k) :
    l.enum.map g = (List.range l.length).map G := by
  refine List.ext_get?_iff.2 (fun n => ?_)
  rw [List.get?_map, List.get?_map, List.get?_enum]
  by_cases hn : n < l.length
  · rw [List.get?_eq_get hn, List.get?_range hn]
    exact congrArg some (h n hn)
  · rw [List.get?_eq_none.2 (le_of_not_lt hn),
      List.get?_eq_none.2 (by simpa using le_of_not_lt hn)]
    rfl

/-- C4 amended: when back-fill runs (non-empty frames, positive duration,
N ≥ 1 instructions) AND every instruction's `step_number` is its 1-based
position or absent, the produced pairs are exactly the 2-decimal roundings
of the uniform partition of `[0, D]`: the k-th pair is
`(round2 (k·D/N), round2 ((k+1)·D/N))`, the first bound is 0, consecutive
steps share their bound exactly (no gap, no overlap), and the last bound is
`round2 D`. -/
theorem addTimestamps_uniform_partition
    (recipe : RecipeData) (vd : VideoData) (D : ℚ) (l : List Instruction)
    (hinstr : recipe.instructions = some l) (hne : l ≠ [])
    (hframes : vd.frames ≠ [])
    (hdur : vd.duration_seconds = some D) (hpos : 0 < D)
    (hsteps : ∀ k (hk : k < l.length), (l.get ⟨k, hk⟩).step_number = none
        ∨ (l.get ⟨k, hk⟩).step_number = some ((k : ℚ) + 1)) :
    ((addTimestamps recipe vd).instructions.getD []).map
        (fun i => (i.timestamp_start, i.timestamp_end)) = uniformPairs D l.length
    ∧ (uniformPairs D l.length).length = l.length
    ∧ (∀ k, k < l.length → (uniformPairs D l.length).get? k
        = some (some (round2 ((k : ℚ) * D / l.length)),
                some (round2 (((k : ℚ) + 1) * D / l.length))))
    ∧ ((uniformPairs D l.length).get? 0).map Prod.fst = some (some 0)
    ∧ (∀ k, k + 1 < l.length →
        ((uniformPairs D l.length).get? k).map Prod.snd
          = ((uniformPairs D l.length).get? (k + 1)).map Prod.fst)
    ∧ ((uniformPairs D l.length).get? (l.length - 1)).map Prod.snd
        = some (some (round2 D)) := by
  have hNpos : 0 < l.length := List.length_pos.2 hne
  have hN1 : 1 ≤ l.length := hNpos
  have hN0 : (l.length : ℚ) ≠ 0 := Nat.cast_ne_zero.2 (Nat.pos_iff_ne_zero.1 hNpos)
  have hmax : max l.length 1 = l.length := Nat.max_eq_left hNpos
  have hframesB : vd.frames.isEmpty = false := by
    cases hv : vd.frames
    · exact absurd hv hframes
    · rfl
  have hlB : l.isEmpty = false := by
    cases hv : l
    · exact absurd hv hne
    · rfl
  have hguard : (vd.frames.isEmpty || l.isEmpty) = false := by
    rw [hframesB, hlB]
    rfl
  have hstep : addTimestamps recipe vd = { recipe with
      instructions := some (l.enum.map (fun p =>
        { p.2 with
          timestamp_start := some (round2 ((p.2.step_number.getD ((p.1 : ℚ) + 1) - 1)
            * (D / ((max l.length 1 : ℕ) : ℚ)))),
          timestamp_end := some (round2 ((p.2.step_number.getD ((p.1 : ℚ) + 1))
            * (D / ((max l.length 1 : ℕ) : ℚ)))) })) } := by
    unfold addTimestamps
    simp only [hinstr, hdur, Option.getD_some, hguard, Bool.false_eq_true, if_false]
    rw [if_neg (not_le.2 hpos)]
  have hget : ∀ k, k < l.length → (uniformPairs D l.length).get? k
      = some (some (round2 ((k : ℚ) * D / l.length)),
              some (round2 (((k : ℚ) + 1) * D / l.length))) := by
    intro k hk
    unfold uniformPairs
    rw [List.get?_map, List.get?_range hk]
    rfl
  refine ⟨?_, ?_, hget, ?_, ?_, ?_⟩
  · rw [hstep]
    simp only [Option.getD_some]
    rw [List.map_map]
    unfold uniformPairs
    apply enum_map_eq_range_map
    intro k hk
    rcases hsteps k hk with hs | hs <;>
      simp only [Function.comp, hs, Option.getD_none, Option.getD_some, hmax] <;>
      exact Prod.ext
        (congrArg some (congrArg round2 (by ring)))
        (congrArg some (congrArg round2 (by ring)))
  · simp [uniformPairs]
  · rw [hget 0 hNpos]
    simp only [Option.map_some']
    rw [show ((0 : ℕ) : ℚ) * D / (l.length : ℚ) = 0 by norm_num, round2_zero]
  · intro k hk
    rw [hget k (by omega), hget (k + 1) hk]
    simp only [Option.map_some']
    rw [show (((k + 1 : ℕ)) : ℚ) = (k : ℚ) + 1 by push_cast; ring]
  · rw [hget (l.length - 1) (by omega)]
    simp only [Option.map_some']
    rw [show (((l.length - 1 : ℕ)) : ℚ) + 1 = (l.length : ℚ) by
        rw [Nat.cast_sub hN1]; push_cast; ring]
    rw [show (l.length : ℚ) * D / (l.length : ℚ) = D by field_simp]


theorem addTimestamps_uniform_partition_witness :
    ((addTimestamps recipe_threeSteps vd_oneFrame).instructions.getD []).map
        (fun i => (i.timestamp_start, i.timestamp_end)) = uniformPairs 90 3
    ∧ uniformPairs 90 3 = [(some 0, some 30), (some 30, some 60), (some 60, some 90)] := by
  constructor
  · have h := addTimestamps_uniform_partition recipe_threeSteps vd_oneFrame 90 stubSteps
      rfl (by decide) (by decide) rfl (by norm_num)
      (by
        intro k hk
        have hk3 : k < 3 := hk
        refine Or.inl ?_
        rcases k with _ | _ | _ | n
        · rfl
        · rfl
        · rfl
        · exact absurd hk3 (by omega))
    exact h.1
  · have e30 : round2 (30 : ℚ) = 30 := by
      have h := round2_natCast 30
      norm_num at h
      exact h
    have e60 : round2 (60 : ℚ) = 60 := by
      have h := round2_natCast 60
      norm_num at h
      exact h
    have e90 : round2 (90 : ℚ) = 90 := by
      have h := round2_natCast 90
      norm_num at h
      exact h
    unfold uniformPairs
    rw [show List.range 3 = [0, 1, 2] by rfl]
    simp only [List.map_cons, List.map_nil]
    norm_num [round2_zero, e30, e60, e90]

/-- C7: every OCR line put into the prompt comes from a frame whose stripped
text has length at least 4, and the prompt carries at most the first 50
qualifying lines. -/
theorem prompt_ocr_filtering (vd : VideoData) :
    ((qualifyingLines vd.frames).take 50).length ≤ 50
    ∧ ∀ line ∈ (qualifyingLines vd.frames).take 50,
        line ∈ buildPromptParts vd
        ∧ ∃ f ∈ vd.frames, ∃ s, f.ocr_text = some s ∧ 4 ≤ (pyStrip s).length
            ∧ line = "[" ++ numStr (f.timestamp.getD 0) ++ "s] " ++ pyStrip s := by
  constructor
  · simp [List.length_take]
  · intro line hline
    have hmem : line ∈ qualifyingLines vd.frames := List.take_subset _ _ hline
    obtain ⟨f, hf, hocr⟩ := List.mem_filterMap.1 hmem
    constructor
    · have hne : (qualifyingLines vd.frames).isEmpty = false := by
        cases hq : qualifyingLines vd.frames
        · rw [hq] at hmem
          exact absurd hmem (List.not_mem_nil line)
        · rfl
      simp only [buildPromptParts, hne, Bool.false_eq_true, if_false, List.mem_append,
        List.mem_cons]
      tauto
    · simp only [ocrLine] at hocr
      split at hocr
      · exact absurd hocr (by simp)
      · rename_i s hcase
        split_ifs at hocr with hs hcond
        all_goals simp at hocr
        exact ⟨f, hf, s, hcase, by omega, hocr.symm⟩

theorem prompt_ocr_filtering_witness :
    ("[" ++ numStr ((5 : ℚ)) ++ "s] " ++ pyStrip "2 cups flour")
        ∈ buildPromptParts vd_ocr
    ∧ ((qualifyingLines vd_ocr.frames).take 50).length ≤ 50 := by
  have h := prompt_ocr_filtering vd_ocr
  have hm : ("[" ++ numStr ((5 : ℚ)) ++ "s] " ++ pyStrip "2 cups flour")
      ∈ (qualifyingLines vd_ocr.frames).take 50 := by decide
  exact ⟨(h.2 _ hm).1, h.1⟩


/-- Every tier's per-minute limit is non-negative. -/
theorem get_limits_rpm_nonneg (tier : String) :
    0 ≤ (get_limits tier).requests_per_minute := by
  unfold get_limits
  split_ifs <;> norm_num

/-- Invariant of a run of admission checks at strictly increasing instants
inside one 60-second window, starting from a window already holding `prev`:
the k-th result counts `prev.length + k` prior entries (before inserting),
and afterwards the window holds `prev ++ ts`. -/
theorem runChecks_inv (user_id tier : String) (ts : List ℤ) :
    ∀ (prev : List ℤ) (rl : RateLimiter) (conn : RedisConn),
    rl.redis = some conn → conn.data (minuteKey user_id) = prev →
    (∀ x ∈ prev ++ ts, 0 ≤ x) →
    ((prev ++ ts).Pairwise (· < ·)) →
    (∀ x ∈ prev ++ ts, ∀ y ∈ prev ++ ts, y - x < 60) →
    (runChecks rl user_id tier ts).1.length = ts.length
    ∧ (∀ k, k < ts.length → (runChecks rl user_id tier ts).1.get? k
        = some (decide (((prev.length + k : ℕ) : ℤ) ≤ (get_limits tier).requests_per_minute),
                (get_limits tier).requests_per_minute,
                max 0 ((get_limits tier).requests_per_minute - ((prev.length + k : ℕ) : ℤ))))
    ∧ ∃ conn2, (runChecks rl user_id tier ts).2.redis = some conn2
        ∧ conn2.data (minuteKey user_id) = prev ++ ts := by
  induction ts with
  | nil =>
    intro prev rl conn hrl hdata hpos hsort hwin
    exact ⟨rfl, fun k hk => by simp at hk, conn, hrl,
      by rw [List.append_nil]; exact hdata⟩
  | cons t ts ih =>
    intro prev rl conn hrl hdata hpos hsort hwin
    have hmt : t ∈ prev ++ t :: ts :=
      List.mem_append_right _ (List.mem_cons_self t ts)
    have hxlt : ∀ x ∈ prev, x < t := by
      intro x hx
      exact (List.pairwise_append.1 hsort).2.2 x hx t (List.mem_cons_self t ts)
    have hs1 : zremrangebyscore prev 0 (t - 60) = prev := by
      unfold zremrangebyscore
      apply List.filter_eq_self.2
      intro x hx
      have h0 : 0 ≤ x := hpos x (List.mem_append_left _ hx)
      have h60 : t - x < 60 := hwin x (List.mem_append_left _ hx) t hmt
      simp only [Bool.not_eq_true', Bool.and_eq_false_imp, decide_eq_true_eq,
        decide_eq_false_iff_not]
      intro _
      omega
    have htnot : t ∉ prev := fun hmem => lt_irrefl t (hxlt t hmem)
    have hs2 : zadd prev t = prev ++ [t] := by
      unfold zadd
      rw [if_neg htnot]
    have hstep : rl.check_limit user_id tier t
        = ((decide (((prev.length : ℕ) : ℤ) ≤ (get_limits tier).requests_per_minute),
            (get_limits tier).requests_per_minute,
            max 0 ((get_limits tier).requests_per_minute - ((prev.length : ℕ) : ℤ))),
           ⟨some ⟨fun k => if k = minuteKey user_id then prev ++ [t]
              else conn.data k⟩⟩) := by
      unfold RateLimiter.check_limit
      simp only [hrl, hdata, hs1, hs2]
    have hassoc : (prev ++ [t]) ++ ts = prev ++ t :: ts := by
      rw [List.append_assoc, List.singleton_append]
    obtain ⟨ihlen, ihget, conn3, hc3, hc3data⟩ :=
      ih (prev ++ [t]) ⟨some ⟨fun k => if k = minuteKey user_id then prev ++ [t]
          else conn.data k⟩⟩ _ rfl (by simp)
        (by rw [hassoc]; exact hpos)
        (by rw [hassoc]; exact hsort)
        (by rw [hassoc]; exact hwin)
    have hrun : runChecks rl user_id tier (t :: ts)
        = ((rl.check_limit user_id tier t).1
            :: (runChecks (rl.check_limit user_id tier t).2 user_id tier ts).1,
           (runChecks (rl.check_limit user_id tier t).2 user_id tier ts).2) := rfl
    rw [hrun, hstep]
    refine ⟨by simpa using ihlen, ?_, conn3, hc3, by rw [← hassoc]; exact hc3data⟩
    intro k hk
    cases k with
    | zero =>
      simp only [List.get?]
      norm_num
    | succ k =>
      simp only [List.get?]
      have hk2 : k < ts.length := by simpa using hk
      have h := ihget k hk2
      rw [h]
      have e : (prev ++ [t]).length + k = prev.length + (k + 1) := by
        simp
        omega
      rw [e]

/-- C1 amended: with checks at strictly increasing instants inside one
window, the k-th check (0-indexed) counts the k entries already present
BEFORE inserting its own, so `allowed = (k ≤ limit)` and
`remaining = max 0 (limit - k)` — hence the (L+1)-th check is still allowed
and the (L+2)-th is the first denied — and once the window has elapsed a
further check is allowed again with `remaining = limit`. -/
theorem rate_limiter_window_behavior (user_id tier : String) (ts : List ℤ)
    (hpos : ∀ x ∈ ts, 0 ≤ x) (hsort : ts.Pairwise (· < ·))
    (hwin : ∀ x ∈ ts, ∀ y ∈ ts, y - x < 60) :
    (runChecks freshLimiter user_id tier ts).1.length = ts.length
    ∧ (∀ k, k < ts.length → (runChecks freshLimiter user_id tier ts).1.get? k
        = some (decide ((k : ℤ) ≤ (get_limits tier).requests_per_minute),
                (get_limits tier).requests_per_minute,
                max 0 ((get_limits tier).requests_per_minute - (k : ℤ))))
    ∧ (∀ t2, (∀ x ∈ ts, x ≤ t2 - 60) →
        ((runChecks freshLimiter user_id tier ts).2.check_limit user_id tier t2).1
          = (true, (get_limits tier).requests_per_minute,
             (get_limits tier).requests_per_minute)) := by
  obtain ⟨hlen, hget, conn2, hc2, hc2data⟩ :=
    runChecks_inv user_id tier ts [] freshLimiter ⟨fun _ => []⟩ rfl rfl
      (by simpa using hpos) (by simpa using hsort) (by simpa using hwin)
  refine ⟨hlen, ?_, ?_⟩
  · intro k hk
    have h := hget k hk
    simpa using h
  · intro t2 ht2
    have hL0 : 0 ≤ (get_limits tier).requests_per_minute := get_limits_rpm_nonneg tier
    have hempty : zremrangebyscore (conn2.data (minuteKey user_id)) 0 (t2 - 60) = [] := by
      rw [hc2data]
      unfold zremrangebyscore
      rw [List.filter_eq_nil]
      intro x hx
      have hx2 : x ∈ ts := by simpa using hx
      have h0 : 0 ≤ x := hpos x hx2
      have h60 : x ≤ t2 - 60 := ht2 x hx2
      simp only [Bool.not_eq_true', Bool.and_eq_false_imp, decide_eq_true_eq,
        decide_eq_false_iff_not]
      omega
    unfold RateLimiter.check_limit
    simp only [hc2, hempty]
    have e1 : decide (((List.length ([] : List ℤ)) : ℤ) ≤
        (get_limits tier).requests_per_minute) = true := by
      simp [hL0]
    simp [e1, max_eq_right hL0, hL0]

theorem rate_limiter_window_behavior_witness :
    (runChecks freshLimiter "alice" "free" win12).1.get? 10 = some (true, 10, 0)
    ∧ (runChecks freshLimiter "alice" "free" win12).1.get? 11 = some (false, 10, 0)
    ∧ ((runChecks freshLimiter "alice" "free" win12).2.check_limit
          "alice" "free" 200).1 = (true, 10, 10) := by
  have h := rate_limiter_window_behavior "alice" "free" win12
    (by decide) (by decide) (by decide)
  refine ⟨?_, ?_, ?_⟩
  · rw [h.2.1 10 (by decide)]
    decide
  · rw [h.2.1 11 (by decide)]
    decide
  · rw [h.2.2 200 (by decide)]
    decide
